import Mathlib

/-!
Verification of the cross-widget label text selection engine
(`crates/egui/src/text_selection/label_text_selection.rs`).

The state machine (`LabelSelectionState`: `begin_pass`, `end_pass`,
`copy_text`, `cursor_for`, `on_label`, `selected_text`,
`estimate_row_height`) is embedded shallowly below.  Screen coordinates
(`f32` in the source) are modelled as exact rationals: the engine only
adds, subtracts, scales and compares coordinates, so the branching
structure is preserved.  Collaborators that live outside the translated
sources (the galley layout oracle, `CCursorRange`, `TextCursorState`,
the mesh/shape vertex records) are modelled from the spec's description
of their interfaces; each such definition is marked in its doc comment.
-/

namespace LabelSel

/-- A 2D point (`emath::Pos2`/`Vec2`), with exact rational coordinates. -/
structure Pos2 where
  x : ℚ
  y : ℚ
deriving DecidableEq, Repr

def Pos2.zero : Pos2 := ⟨0, 0⟩

/-- An axis-aligned rectangle (`emath::Rect`), as min/max corners. -/
structure Rect where
  min : Pos2
  max : Pos2
deriving DecidableEq, Repr

def Rect.top (r : Rect) : ℚ := r.min.y

def Rect.bottom (r : Rect) : ℚ := r.max.y

def Rect.center (r : Rect) : Pos2 :=
  ⟨(r.min.x + r.max.x) / 2, (r.min.y + r.max.y) / 2⟩

def Rect.fromMinSize (p size : Pos2) : Rect :=
  ⟨p, ⟨p.x + size.x, p.y + size.y⟩⟩

def Rect.intersect (a b : Rect) : Rect :=
  ⟨⟨Max.max a.min.x b.min.x, Max.max a.min.y b.min.y⟩,
   ⟨Min.min a.max.x b.max.x, Min.min a.max.y b.max.y⟩⟩

/-- Source `Rangef::intersects` applied to the x-ranges of two rectangles. -/
def Rect.xRangeIntersects (a b : Rect) : Bool :=
  decide (a.min.x ≤ b.max.x) && decide (b.min.x ≤ a.max.x)

def Rect.union (a b : Rect) : Rect :=
  ⟨⟨Min.min a.min.x b.min.x, Min.min a.min.y b.min.y⟩,
   ⟨Max.max a.max.x b.max.x, Max.max a.max.y b.max.y⟩⟩

/-- The degenerate `Rect::NOTHING` is modelled as `none`; it behaves as
the identity of `union` and its x-range intersects nothing, exactly as
the infinite-corner rectangle does in the source. -/
def rectUnionOpt : Option Rect → Rect → Option Rect
  | none, r => some r
  | some a, r => some (a.union r)

/-- Source `galley_rect.x_range().intersects(bbox.x_range())` where the bbox may
be `Rect::NOTHING` (modelled `none`). -/
def optXRangeIntersects (a : Rect) : Option Rect → Bool
  | none => false
  | some b => a.xRangeIntersects b

/-- A translation + positive scaling (`emath::TSTransform`). -/
structure TSTransform where
  scaling : ℚ
  translation : Pos2
deriving DecidableEq, Repr

def TSTransform.apply (t : TSTransform) (p : Pos2) : Pos2 :=
  ⟨t.scaling * p.x + t.translation.x, t.scaling * p.y + t.translation.y⟩

def TSTransform.inverse (t : TSTransform) : TSTransform :=
  ⟨1 / t.scaling, ⟨-t.translation.x / t.scaling, -t.translation.y / t.scaling⟩⟩

/-- Composition `a * b` (apply `b` first, then `a`). -/
def TSTransform.mul (a b : TSTransform) : TSTransform :=
  ⟨a.scaling * b.scaling, a.apply b.translation⟩

def TSTransform.mulRect (t : TSTransform) (r : Rect) : Rect :=
  ⟨t.apply r.min, t.apply r.max⟩

def TSTransform.translationOf (p : Pos2) : TSTransform := ⟨1, p⟩

/-- Modelled from the spec: a vertex color; `Color32::TRANSPARENT` is `0`.
(`epaint::Color32` is not among the translated sources.) -/
abbrev Color32 := Nat

def transparent : Color32 := 0

/-- Modelled from the spec: one mesh vertex of a rendered text row; only
its color is mutated by the engine, position and uv are carried along
untouched. (`epaint::Vertex` is not among the translated sources.) -/
structure Vertex where
  pos : Pos2
  uv : Pos2
  color : Color32
deriving DecidableEq, Repr

/-- Modelled from the spec: `RowVertexIndices` from
`text_selection::visuals` — the row index and the vertex indices that
were tinted for the selection highlight in that row. -/
structure RowVertexIndices where
  row : Nat
  vertex_indices : List Nat
deriving DecidableEq, Repr

/-- Modelled from the spec: the vertex mesh of one placed galley row
(`placed_row.row.visuals.mesh.vertices`). -/
structure RowMesh where
  vertices : List Vertex
deriving DecidableEq, Repr

/-- Modelled from the spec: a rendered shape; only text shapes carry a
mutable glyph mesh, any other shape is opaque to the engine. -/
inductive Shape where
  | text (rows : List RowMesh)
  | other (tag : Nat)
deriving DecidableEq, Repr

/-- The list of shapes painted on one layer. -/
abbrev PaintList := List Shape

/-- Modelled from the spec: the per-layer shape lists
(`ctx.graphics_mut`), keyed by layer id. -/
abbrev Graphics := List (Nat × PaintList)

def lookupLayer : Graphics → Nat → Option PaintList
  | [], _ => none
  | (k, v) :: rest, layer => if k = layer then some v else lookupLayer rest layer

def updateLayer : Graphics → Nat → PaintList → Graphics
  | [], _, _ => []
  | (k, v) :: rest, layer, l =>
    if k = layer then (k, l) :: rest else (k, v) :: updateLayer rest layer l

/-- Replace the element at index `n` by `f` of it; out-of-range indices
leave the list unchanged (the `get_mut` pattern of the source). -/
def modifyAt {α : Type} (f : α → α) : Nat → List α → List α
  | _, [] => []
  | 0, x :: xs => f x :: xs
  | n + 1, x :: xs => x :: modifyAt f n xs

/-- Source `vertex.color = Color32::TRANSPARENT` (end_pass teardown). -/
def revertVertex (v : Vertex) : Vertex := { v with color := transparent }

/-- Revert the vertices at the given indices of a vertex list. -/
def revertFold (idxs : List Nat) (vs : List Vertex) : List Vertex :=
  idxs.foldl (fun vs i => modifyAt revertVertex i vs) vs

/-- Revert the recorded vertex indices of one row mesh. -/
def revertRowMesh (idxs : List Nat) (m : RowMesh) : RowMesh :=
  ⟨revertFold idxs m.vertices⟩

/-- Revert one recorded `RowVertexIndices` inside the rows of a galley. -/
def revertRows (sel : RowVertexIndices) (rows : List RowMesh) : List RowMesh :=
  modifyAt (revertRowMesh sel.vertex_indices) sel.row rows

def revertAllRows (sels : List RowVertexIndices) (rows : List RowMesh) : List RowMesh :=
  sels.foldl (fun rs s => revertRows s rs) rows

/-- The closure passed to `mutate_shape`: only text shapes are touched. -/
def revertShape (sels : List RowVertexIndices) : Shape → Shape
  | .text rows => .text (revertAllRows sels rows)
  | s => s

/-- Source `list.mutate_shape(shape_idx, |shape| ...)` for the teardown closure. -/
def mutate_shape (l : PaintList) (idx : Nat) (sels : List RowVertexIndices) : PaintList :=
  modifyAt (revertShape sels) idx l

/-- The whole teardown loop over `painted_selections`. -/
def revertPaintList (painted : List (Nat × List RowVertexIndices)) (l : PaintList) : PaintList :=
  painted.foldl (fun l p => mutate_shape l p.1 p.2) l

/-- Color of the vertex at (row, vertex index) within a row list, when
the indices are in range. -/
def rowsColor? (rows : List RowMesh) (r v : Nat) : Option Color32 :=
  match rows.get? r with
  | some m => (m.vertices.get? v).map (fun x => x.color)
  | none => none

/-- Color of a vertex of a shape; non-text shapes carry no mesh. -/
def shapeColor? : Shape → Nat → Nat → Option Color32
  | .text rows, r, v => rowsColor? rows r v
  | .other _, _, _ => none

/-- Color of the vertex at (shape index, row, vertex index) in a paint
list, when that shape is a text shape and the indices are in range. -/
def shapeVertexColor? (l : PaintList) (shapeIdx row vi : Nat) : Option Color32 :=
  match l.get? shapeIdx with
  | some s => shapeColor? s row vi
  | none => none

def vertexColor? (g : Graphics) (layer shapeIdx row vi : Nat) : Option Color32 :=
  match lookupLayer g layer with
  | some l => shapeVertexColor? l shapeIdx row vi
  | none => none

/-- Modelled from the spec: a character-offset cursor range
(`text_selection::CCursorRange`, not among the translated sources).
A cursor is a character index into the galley's text; `h_pos` and
`prefer_next_row` play no role in any claim and are omitted. -/
structure CCursorRange where
  primary : Nat
  secondary : Nat
deriving DecidableEq, Repr

def CCursorRange.sortedMin (r : CCursorRange) : Nat := Nat.min r.primary r.secondary

def CCursorRange.sortedMax (r : CCursorRange) : Nat := Nat.max r.primary r.secondary

/-- Modelled from the spec: an empty (collapsed) range. -/
def CCursorRange.is_empty (r : CCursorRange) : Bool := r.primary == r.secondary

/-- Modelled from the spec: a range spanning `min ..= max`. -/
def CCursorRange.two (lo hi : Nat) : CCursorRange := ⟨hi, lo⟩

/-- Modelled from the spec: `self` covers `other` (sorted inclusion). -/
def CCursorRange.contains (r other : CCursorRange) : Bool :=
  decide (r.sortedMin ≤ other.sortedMin) && decide (other.sortedMax ≤ r.sortedMax)

/-- The galley layout oracle (spec §6).  Modelled from the spec: the
engine queries it for its full text, cursor/position conversions,
begin/end cursors, row heights and total size; offsets returned by the
oracle are assumed in bounds (spec §7). -/
structure Galley where
  text : String
  row_heights : List ℚ
  size : Pos2
  cursor_from_pos : Pos2 → Nat
  pos_from_cursor : Nat → Rect

def Galley.beginC (_g : Galley) : Nat := 0

def Galley.endC (g : Galley) : Nat := g.text.length

/-- Modelled from the spec: `CCursorRange::select_all(galley)`. -/
def CCursorRange.select_all (g : Galley) : CCursorRange :=
  CCursorRange.two g.beginC g.endC

/-- Modelled from the spec: `slice_str` — the characters covered by the
sorted range. -/
def CCursorRange.slice_str (r : CCursorRange) (g : Galley) : String :=
  String.mk ((g.text.toList.drop r.sortedMin).take (r.sortedMax - r.sortedMin))

/-- Source `pos_in_galley`: center of the cursor's rectangle. -/
def pos_in_galley (g : Galley) (ccursor : Nat) : Pos2 :=
  (g.pos_from_cursor ccursor).center

/-- One end of a text selection, inside any widget (`WidgetTextCursor`). -/
structure WidgetTextCursor where
  widget_id : Nat
  ccursor : Nat
  pos : Pos2
deriving DecidableEq, Repr

/-- Source `WidgetTextCursor::new`. -/
def WidgetTextCursor.new (widget_id : Nat) (cursor : Nat)
    (global_from_galley : TSTransform) (g : Galley) : WidgetTextCursor :=
  ⟨widget_id, cursor, global_from_galley.apply (pos_in_galley g cursor)⟩

/-- The live cross-widget selection (`CurrentSelection`). -/
structure CurrentSelection where
  layer_id : Nat
  primary : WidgetTextCursor
  secondary : WidgetTextCursor
deriving DecidableEq, Repr

/-- The persisted engine state (`LabelSelectionState`). -/
structure LabelSelectionState where
  selection : Option CurrentSelection
  selection_bbox_last_frame : Option Rect
  selection_bbox_this_frame : Option Rect
  any_hovered : Bool
  is_dragging : Bool
  has_reached_primary : Bool
  has_reached_secondary : Bool
  text_to_copy : String
  last_copied_galley_rect : Option Rect
  painted_selections : List (Nat × List RowVertexIndices)
deriving DecidableEq, Repr

/-- Source `Default for LabelSelectionState`. -/
def LabelSelectionState.default : LabelSelectionState :=
  { selection := none
    selection_bbox_last_frame := none
    selection_bbox_this_frame := none
    any_hovered := false
    is_dragging := false
    has_reached_primary := false
    has_reached_secondary := false
    text_to_copy := ""
    last_copied_galley_rect := none
    painted_selections := [] }

/-- The per-pass input snapshot consumed by the pass hooks. -/
structure PassInput where
  any_pressed : Bool
  any_released : Bool
  shift : Bool
  escape_pressed : Bool
deriving DecidableEq, Repr

/-- Source `LabelSelectionState::begin_pass`.  The source contains a deliberately
commented-out clearing of `selection` on a fresh unmodified pointer
press; it is a no-op and stays one here. -/
def begin_pass (i : PassInput) (s : LabelSelectionState) : LabelSelectionState :=
  { s with
    selection_bbox_last_frame := s.selection_bbox_this_frame
    selection_bbox_this_frame := none
    any_hovered := false
    has_reached_primary := false
    has_reached_secondary := false
    text_to_copy := ""
    last_copied_galley_rect := none
    painted_selections := [] }

/-- The visibility-loss teardown at the start of `end_pass`: when not
both endpoints were reached this frame, take and discard the selection,
and — when one was present and its layer has a shape list — revert every
painted selection vertex to transparent (draining the record). -/
def teardownStep (g0 : Graphics) (s0 : LabelSelectionState) :
    LabelSelectionState × Graphics :=
  if !s0.has_reached_primary || !s0.has_reached_secondary then
    match s0.selection with
    | some sel =>
      match lookupLayer g0 sel.layer_id with
      | some l =>
        ({ s0 with selection := none, painted_selections := [] },
         updateLayer g0 sel.layer_id (revertPaintList s0.painted_selections l))
      | none => ({ s0 with selection := none }, g0)
    | none => ({ s0 with selection := none }, g0)
  else (s0, g0)

/-- Source `LabelSelectionState::end_pass`.  Returns the stored state, the
mutated graphics, and the text handed to the clipboard sink (if any).
The cursor-icon request is a fire-and-forget sink and carries no state. -/
def end_pass (i : PassInput) (g0 : Graphics) (s0 : LabelSelectionState) :
    LabelSelectionState × Graphics × Option String :=
  let sg := teardownStep g0 s0
  let s1 := sg.1
  let deselected := i.escape_pressed || (i.any_pressed && !s1.any_hovered)
  let s2 := if deselected then { s1 with selection := none } else s1
  let s3 := if i.any_released then { s2 with is_dragging := false } else s2
  let t := s3.text_to_copy
  ({ s3 with text_to_copy := "" }, sg.2, if t.isEmpty then none else some t)

/-- Source `selected_text`: full un-elided text when the range is empty or
covers everything, the covered slice otherwise. -/
def selected_text (g : Galley) (cursor_range : CCursorRange) : String :=
  let everything_is_selected := cursor_range.contains (CCursorRange.select_all g)
  let copy_everything := cursor_range.is_empty || everything_is_selected
  if copy_everything then g.text else cursor_range.slice_str g

/-- Source `estimate_row_height`: the first placed row's height, or the galley's
total height when there are no rows. -/
def estimate_row_height (g : Galley) : ℚ :=
  match g.row_heights.head? with
  | some h => h
  | none => g.size.y

/-- Rust `char::is_ascii_punctuation`. -/
def isAsciiPunctuation (c : Char) : Bool :=
  let n := c.toNat
  (0x21 ≤ n && n ≤ 0x2F) || (0x3A ≤ n && n ≤ 0x40) ||
  (0x5B ≤ n && n ≤ 0x60) || (0x7B ≤ n && n ≤ 0x7E)

/-- First character is whitespace or ASCII punctuation (the
`new_text_starts_with_space_or_punctuation` test of `copy_text`). -/
def startsWithSpaceOrPunct (s : String) : Bool :=
  match s.toList.head? with
  | some c => c.isWhitespace || isAsciiPunctuation c
  | none => false

/-- Source `LabelSelectionState::copy_text` (the clipboard accumulator with the
newline/space join heuristic). -/
def copy_text (s : LabelSelectionState) (new_galley_rect : Rect) (g : Galley)
    (cursor_range : CCursorRange) : LabelSelectionState :=
  let new_text := selected_text g cursor_range
  if new_text.isEmpty then s
  else if s.text_to_copy.isEmpty then
    { s with text_to_copy := new_text, last_copied_galley_rect := some new_galley_rect }
  else
    match s.last_copied_galley_rect with
    | none =>
      { s with text_to_copy := new_text, last_copied_galley_rect := some new_galley_rect }
    | some last_copied_galley_rect =>
      let acc :=
        if last_copied_galley_rect.bottom ≤ new_galley_rect.top then
          let acc := s.text_to_copy ++ "\n"
          let vertical_distance := new_galley_rect.top - last_copied_galley_rect.bottom
          if estimate_row_height g * (1 / 2) < vertical_distance then acc ++ "\n" else acc
        else
          let existing_ends_with_space :=
            (s.text_to_copy.toList.getLast?).map Char.isWhitespace
          let new_text_starts_with_space_or_punctuation :=
            startsWithSpaceOrPunct new_text
          if existing_ends_with_space = some false ∧
              new_text_starts_with_space_or_punctuation = false then
            s.text_to_copy ++ " "
          else s.text_to_copy
      { s with text_to_copy := acc ++ new_text,
               last_copied_galley_rect := some new_galley_rect }

/-- Everything a widget visit reads from `ui`/`ctx`/`response`, plus the
collaborator behaviors the visit invokes.  `pointer_interaction` and
`key_events` are modelled from the spec: they stand for
`TextCursorState::pointer_interaction` (click/double-click/word-select
semantics, given the cursor under the pointer) and for replaying the
frame's input events against a cursor range
(`process_selection_key_events`); neither is among the translated
sources.  `paint_vertices` is the row/vertex record produced by
`paint_text_selection` when a range is painted. -/
structure VisitInput where
  id : Nat
  layer_id : Nat
  hovered : Bool
  is_pointer_button_down_on : Bool
  contains_pointer : Bool
  pointer_interact_pos : Option Pos2
  any_pressed : Bool
  shift : Bool
  copy_event : Bool
  multi_widget_text_select : Bool
  clip_rect : Rect
  global_from_layer : TSTransform
  galley_pos : Pos2
  pointer_interaction : Nat → Option CCursorRange → Option CCursorRange
  key_events : CCursorRange → CCursorRange
  paint_vertices : List RowVertexIndices

/-- Value of `global_from_galley` as composed at the start of `on_label`. -/
def globalFromGalley (v : VisitInput) : TSTransform :=
  v.global_from_layer.mul (TSTransform.translationOf v.galley_pos)

/-- Value of `galley_from_global` as composed at the start of `on_label`. -/
def galleyFromGlobal (v : VisitInput) : TSTransform :=
  ((TSTransform.translationOf v.galley_pos).inverse).mul v.global_from_layer.inverse

/-- The clipped on-screen galley rectangle used by the drag logic. -/
def clippedGalleyRect (v : VisitInput) (global_from_galley : TSTransform)
    (g : Galley) : Rect :=
  (global_from_galley.mulRect (Rect.fromMinSize Pos2.zero g.size)).intersect v.clip_rect

/-- The drag-to-select block of `cursor_for`: possibly recompute the
primary endpoint from the pointer (directly under it, or the
begin/end edge-extension cases), and on a fresh press reset the anchor. -/
def dragUpdatedSelection (v : VisitInput) (global_from_galley : TSTransform)
    (g : Galley) (s : LabelSelectionState) (sel : CurrentSelection) : CurrentSelection :=
  let may_select_widget := v.multi_widget_text_select || (sel.primary.widget_id == v.id)
  if s.is_dragging && may_select_widget then
    match v.pointer_interact_pos with
    | none => sel
    | some pointer_pos =>
      let galley_rect := clippedGalleyRect v global_from_galley g
      let is_in_same_column := optXRangeIntersects galley_rect s.selection_bbox_last_frame
      let has_reached_primary :=
        s.has_reached_primary || (v.id == sel.primary.widget_id)
      let has_reached_secondary :=
        s.has_reached_secondary || (v.id == sel.secondary.widget_id)
      let new_primary : Option Nat :=
        if v.contains_pointer then
          some (g.cursor_from_pos (global_from_galley.inverse.apply pointer_pos))
        else if is_in_same_column ∧ ¬s.has_reached_primary ∧
            sel.primary.pos.y ≤ sel.secondary.pos.y ∧
            pointer_pos.y ≤ galley_rect.top ∧
            galley_rect.top ≤ sel.secondary.pos.y then
          some g.beginC
        else if is_in_same_column ∧ has_reached_secondary ∧ has_reached_primary ∧
            sel.secondary.pos.y ≤ sel.primary.pos.y ∧
            sel.secondary.pos.y ≤ galley_rect.bottom ∧
            galley_rect.bottom ≤ pointer_pos.y then
          some g.endC
        else none
      match new_primary with
      | none => sel
      | some np =>
        let selA := { sel with primary := WidgetTextCursor.new v.id np global_from_galley g }
        if v.any_pressed then
          if selA.layer_id == v.layer_id then
            if v.shift then selA
            else { selA with secondary := selA.primary }
          else { selA with layer_id := v.layer_id, secondary := selA.primary }
        else selA
  else sel

/-- Refresh the cached screen position of an endpoint this widget owns. -/
def refreshPrimary (v : VisitInput) (global_from_galley : TSTransform)
    (g : Galley) (sel : CurrentSelection) : CurrentSelection :=
  if v.id == sel.primary.widget_id then
    { sel with primary :=
        { sel.primary with pos := global_from_galley.apply (pos_in_galley g sel.primary.ccursor) } }
  else sel

/-- Symmetric position refresh for the secondary endpoint. -/
def refreshSecondary (v : VisitInput) (global_from_galley : TSTransform)
    (g : Galley) (sel : CurrentSelection) : CurrentSelection :=
  if v.id == sel.secondary.widget_id then
    { sel with secondary :=
        { sel.secondary with pos := global_from_galley.apply (pos_in_galley g sel.secondary.ccursor) } }
  else sel

/-- Source `LabelSelectionState::cursor_for`.  Returns the updated state and the
local cursor range for this widget (`TextCursorState` is modelled from
the spec as the optional character range it carries). -/
def cursor_for (v : VisitInput) (global_from_galley : TSTransform) (g : Galley)
    (s : LabelSelectionState) : LabelSelectionState × Option CCursorRange :=
  match s.selection with
  | none => (s, none)
  | some sel0 =>
    if sel0.layer_id ≠ v.layer_id then (s, none)
    else
      let sel1 := dragUpdatedSelection v global_from_galley g s sel0
      let has_primary := v.id == sel1.primary.widget_id
      let has_secondary := v.id == sel1.secondary.widget_id
      let sel2 := refreshSecondary v global_from_galley g
        (refreshPrimary v global_from_galley g sel1)
      let hrp := s.has_reached_primary || has_primary
      let hrs := s.has_reached_secondary || has_secondary
      let s' := { s with selection := some sel2,
                         has_reached_primary := hrp, has_reached_secondary := hrs }
      let range : Option CCursorRange :=
        if has_primary && has_secondary then
          some ⟨sel2.primary.ccursor, sel2.secondary.ccursor⟩
        else if has_primary then
          some ⟨sel2.primary.ccursor, if hrs then g.beginC else g.endC⟩
        else if has_secondary then
          some ⟨if hrp then g.beginC else g.endC, sel2.secondary.ccursor⟩
        else if hrp != hrs then
          some (CCursorRange.two g.beginC g.endC)
        else none
      (s', range)

/-- The pointer-interaction step of `on_label`: when the pointer is over
the widget, apply the click/double-click semantics at the cursor under
the pointer (spec-modelled oracle), else keep the range. -/
def pointerAdjusted (v : VisitInput) (g : Galley)
    (cs : Option CCursorRange) : Option CCursorRange :=
  match v.pointer_interact_pos with
  | some pointer_pos =>
    if v.contains_pointer then
      v.pointer_interaction
        (g.cursor_from_pos ((galleyFromGlobal v).apply pointer_pos)) cs
    else cs
  | none => cs

/-- Source `LabelSelectionState::on_label`.  Returns the updated state and the
painted row/vertex indices.  The scroll-into-view step only issues a
fire-and-forget scroll request and mutates no state, so it is omitted. -/
def on_label (v : VisitInput) (g : Galley) (s0 : LabelSelectionState) :
    LabelSelectionState × List RowVertexIndices :=
  let global_from_galley := globalFromGalley v
  let s1 := { s0 with any_hovered := s0.any_hovered || v.hovered,
                      is_dragging := s0.is_dragging || v.is_pointer_button_down_on }
  let sc := cursor_for v global_from_galley g s1
  let s2 := sc.1
  let old_range := sc.2
  let cs1 := pointerAdjusted v g old_range
  let sc2 :=
    match cs1 with
    | some r =>
      let galley_rect := global_from_galley.mulRect (Rect.fromMinSize Pos2.zero g.size)
      let sA := { s2 with selection_bbox_this_frame :=
                    rectUnionOpt s2.selection_bbox_this_frame galley_rect }
      let r1 :=
        match sA.selection with
        | some sel => if sel.primary.widget_id == v.id then v.key_events r else r
        | none => r
      let sB := if v.copy_event then copy_text sA galley_rect g r1 else sA
      (sB, some r1)
    | none => (s2, none)
  let s3 := sc2.1
  let new_range := sc2.2
  let selection_changed : Bool := decide (old_range ≠ new_range)
  let s4 :=
    match selection_changed, new_range with
    | true, some range =>
      match s3.selection with
      | some sel =>
        let primary_changed : Bool := decide (some range.primary ≠ old_range.map (fun r => r.primary))
        let secondary_changed : Bool := decide (some range.secondary ≠ old_range.map (fun r => r.secondary))
        let p :=
          if primary_changed || !v.multi_widget_text_select then
            WidgetTextCursor.new v.id range.primary global_from_galley g
          else sel.primary
        let hrp :=
          if primary_changed || !v.multi_widget_text_select then true
          else s3.has_reached_primary
        let q :=
          if secondary_changed || !v.multi_widget_text_select then
            WidgetTextCursor.new v.id range.secondary global_from_galley g
          else sel.secondary
        let hrs :=
          if secondary_changed || !v.multi_widget_text_select then true
          else s3.has_reached_secondary
        { s3 with selection := some { layer_id := v.layer_id, primary := p, secondary := q },
                  has_reached_primary := hrp, has_reached_secondary := hrs }
      | none =>
        let fresh := CurrentSelection.mk v.layer_id
          (WidgetTextCursor.new v.id range.primary global_from_galley g)
          (WidgetTextCursor.new v.id range.secondary global_from_galley g)
        { s3 with selection := some fresh,
                  has_reached_primary := true, has_reached_secondary := true }
    | _, _ => s3
  (s4, match new_range with
       | some _ => v.paint_vertices
       | none => [])

/-! ### Spec-side restatements (written from the claims' wording) -/

/-- The accumulated text ends in a whitespace character. -/
def endsInWhitespace (s : String) : Bool :=
  (s.toList.getLast?).any Char.isWhitespace

/-- The join separator as the spec describes it: one newline when the
previous fragment's bottom is at or above the new fragment's top and the
vertical gap is at most half the estimated row height, two newlines when
the gap exceeds it; otherwise one space exactly when the accumulated
text does not end in whitespace and the new fragment does not start with
whitespace or ASCII punctuation. -/
def joinSeparator (A B : Rect) (rowHeight : ℚ) (acc newFrag : String) : String :=
  if A.bottom ≤ B.top then
    if B.top - A.bottom ≤ rowHeight / 2 then "\n" else "\n\n"
  else if endsInWhitespace acc = false ∧ startsWithSpaceOrPunct newFrag = false then " "
  else ""

/-- The four-case rule of the spec for the local cursor range of a visit:
both endpoints owned → exactly the stored cursors; only the primary →
the secondary is synthesized as the text begin when the secondary
endpoint was already reached and the text end otherwise; symmetric for
only the secondary; neither → full text exactly when exactly one
endpoint has been reached, no selection otherwise. -/
def fourCaseRange (g : Galley) (wid : Nat) (sel : CurrentSelection)
    (reached_primary reached_secondary : Bool) : Option CCursorRange :=
  let owns_primary := wid == sel.primary.widget_id
  let owns_secondary := wid == sel.secondary.widget_id
  if owns_primary && owns_secondary then
    some ⟨sel.primary.ccursor, sel.secondary.ccursor⟩
  else if owns_primary then
    some ⟨sel.primary.ccursor, if reached_secondary then g.beginC else g.endC⟩
  else if owns_secondary then
    some ⟨if reached_primary then g.beginC else g.endC, sel.secondary.ccursor⟩
  else if reached_primary != reached_secondary then
    some (CCursorRange.two g.beginC g.endC)
  else none

/-! ### Concrete sample data, used by the witness theorems -/

def idT : TSTransform := ⟨1, ⟨0, 0⟩⟩

def helloGalley : Galley :=
  { text := "hello", row_heights := [4], size := ⟨20, 4⟩,
    cursor_from_pos := fun _ => 0, pos_from_cursor := fun _ => ⟨⟨0, 0⟩, ⟨1, 4⟩⟩ }

def barGalley : Galley :=
  { text := "bar", row_heights := [10], size := ⟨12, 10⟩,
    cursor_from_pos := fun _ => 0, pos_from_cursor := fun _ => ⟨⟨0, 0⟩, ⟨1, 10⟩⟩ }

def abGalley : Galley :=
  { text := "ab", row_heights := [5], size := ⟨10, 5⟩,
    cursor_from_pos := fun _ => 0, pos_from_cursor := fun _ => ⟨⟨0, 0⟩, ⟨1, 5⟩⟩ }

/-- An accumulator state mid-copy: text already copied, previous
fragment bbox spanning y = 90..100. -/
def accState (t : String) : LabelSelectionState :=
  { LabelSelectionState.default with
    text_to_copy := t
    last_copied_galley_rect := some ⟨⟨0, 90⟩, ⟨12, 100⟩⟩ }

def sampleSelection : CurrentSelection :=
  ⟨0, ⟨5, 1, ⟨1, 3⟩⟩, ⟨6, 2, ⟨1, 4⟩⟩⟩

def sampleState : LabelSelectionState :=
  { LabelSelectionState.default with
    selection := some sampleSelection
    is_dragging := true
    has_reached_primary := true
    has_reached_secondary := true }

/-- A state after a mid-pass `clear_selection`: painted marks recorded
but no stored selection, endpoints not reached. -/
def clearedState : LabelSelectionState :=
  { LabelSelectionState.default with
    painted_selections := [(0, [⟨0, [0]⟩])] }

/-- One layer (id 0) with one text shape of one row whose single vertex
is tinted with color 5. -/
def tintedGraphics : Graphics :=
  [(0, [Shape.text [⟨[⟨⟨0, 0⟩, ⟨0, 0⟩, 5⟩]⟩]])]

/-- A live selection (layer 0) whose endpoints were not both reached,
with two tinted vertices recorded. -/
def lostState : LabelSelectionState :=
  { LabelSelectionState.default with
    selection := some sampleSelection
    painted_selections := [(0, [⟨0, [0, 1]⟩])] }

def lostGraphics : Graphics :=
  [(0, [Shape.text [⟨[⟨⟨0, 0⟩, ⟨0, 0⟩, 7⟩, ⟨⟨0, 0⟩, ⟨0, 0⟩, 9⟩]⟩]])]

/-- A quiet visit in the selection's own layer by the widget owning the
primary endpoint (id 5): no pointer, no drag. -/
def ownVisit : VisitInput :=
  { id := 5, layer_id := 0, hovered := false, is_pointer_button_down_on := false,
    contains_pointer := false, pointer_interact_pos := none, any_pressed := false,
    shift := false, copy_event := false, multi_widget_text_select := true,
    clip_rect := ⟨⟨-100, -100⟩, ⟨100, 100⟩⟩, global_from_layer := idT,
    galley_pos := ⟨0, 0⟩, pointer_interaction := fun _ c => c,
    key_events := fun r => r, paint_vertices := [] }

def ownState : LabelSelectionState :=
  { LabelSelectionState.default with selection := some sampleSelection }

/-- A drag frame: the pointer (widget 3, layer 0) sits above the galley. -/
def upVisit : VisitInput :=
  { ownVisit with id := 3, pointer_interact_pos := some ⟨2, -1⟩ }

def upState : LabelSelectionState :=
  { LabelSelectionState.default with
    selection := some sampleSelection
    selection_bbox_last_frame := some ⟨⟨0, 0⟩, ⟨10, 50⟩⟩
    is_dragging := true }

/-- A drag frame: the pointer (widget 3, layer 0) sits below the galley. -/
def downVisit : VisitInput :=
  { ownVisit with id := 3, pointer_interact_pos := some ⟨2, 6⟩ }

def downSelection : CurrentSelection :=
  ⟨0, ⟨5, 1, ⟨1, 4⟩⟩, ⟨6, 2, ⟨1, 2⟩⟩⟩

def downState : LabelSelectionState :=
  { LabelSelectionState.default with
    selection := some downSelection
    selection_bbox_last_frame := some ⟨⟨0, 0⟩, ⟨10, 50⟩⟩
    is_dragging := true
    has_reached_primary := true
    has_reached_secondary := true }

/-- A clicking visit from a widget (id 9) in layer 1: pointer over the
widget, button pressed, the interaction oracle yields a collapsed
cursor at the pointer, as a click does. -/
def crossVisit : VisitInput :=
  { id := 9, layer_id := 1, hovered := true, is_pointer_button_down_on := false,
    contains_pointer := true, pointer_interact_pos := some ⟨1, 1⟩,
    any_pressed := true, shift := false, copy_event := false,
    multi_widget_text_select := true,
    clip_rect := ⟨⟨-100, -100⟩, ⟨100, 100⟩⟩, global_from_layer := idT,
    galley_pos := ⟨0, 0⟩, pointer_interaction := fun c _ => some ⟨c, c⟩,
    key_events := fun r => r, paint_vertices := [⟨0, [0]⟩] }

/-- A quiet visit from layer 1: pointer not over the widget, so the
interaction produces no range. -/
def quietCrossVisit : VisitInput :=
  { crossVisit with contains_pointer := false, pointer_interaction := fun _ c => c }

/-! ## Theorems -/

/-- C8: `begin_pass` resets `any_hovered`, `has_reached_primary`,
`has_reached_secondary` to false, empties the pending copy text, the
last copied fragment rect and the painted selection marks, rotates
`bbox_this_frame` into `bbox_last_frame` and resets `bbox_this_frame` to
the degenerate rectangle (modelled `none`), and leaves `selection` and
`is_dragging` unchanged — in particular it does not clear the selection
on a fresh unmodified pointer press. -/
theorem begin_pass_resets (i : PassInput) (s : LabelSelectionState) :
    (begin_pass i s).any_hovered = false ∧
    (begin_pass i s).has_reached_primary = false ∧
    (begin_pass i s).has_reached_secondary = false ∧
    (begin_pass i s).text_to_copy = "" ∧
    (begin_pass i s).last_copied_galley_rect = none ∧
    (begin_pass i s).painted_selections = [] ∧
    (begin_pass i s).selection_bbox_last_frame = s.selection_bbox_this_frame ∧
    (begin_pass i s).selection_bbox_this_frame = none ∧
    (begin_pass i s).selection = s.selection ∧
    (begin_pass i s).is_dragging = s.is_dragging :=
  ⟨rfl, rfl, rfl, rfl, rfl, rfl, rfl, rfl, rfl, rfl⟩

theorem teardownStep_any_hovered (g : Graphics) (s : LabelSelectionState) :
    (teardownStep g s).1.any_hovered = s.any_hovered := by
  unfold teardownStep
  repeat' split
  all_goals rfl

theorem teardownStep_text_to_copy (g : Graphics) (s : LabelSelectionState) :
    (teardownStep g s).1.text_to_copy = s.text_to_copy := by
  unfold teardownStep
  repeat' split
  all_goals rfl

theorem teardownStep_skip (g : Graphics) (s : LabelSelectionState)
    (h1 : s.has_reached_primary = true) (h2 : s.has_reached_secondary = true) :
    teardownStep g s = (s, g) := by
  unfold teardownStep
  simp [h1, h2]

theorem teardownStep_selection (g : Graphics) (s : LabelSelectionState)
    (h : (!s.has_reached_primary || !s.has_reached_secondary) = true) :
    (teardownStep g s).1.selection = none := by
  unfold teardownStep
  rw [if_pos h]
  repeat' split
  all_goals rfl

/-- C6: at pass end, if Escape was pressed this frame, or a pointer press
occurred while `any_hovered` is false, `end_pass` clears the selection —
unconditionally, in particular also while `is_dragging` is true. -/
theorem end_pass_deselect_all (i : PassInput) (g : Graphics) (s : LabelSelectionState)
    (h : i.escape_pressed = true ∨ (i.any_pressed = true ∧ s.any_hovered = false)) :
    (end_pass i g s).1.selection = none := by
  have hd : (i.escape_pressed || (i.any_pressed && !s.any_hovered)) = true := by
    rcases h with h | ⟨h1, h2⟩ <;> simp [*]
  unfold end_pass
  simp only [teardownStep_any_hovered, hd]
  split <;> rfl

/-- C6 witness: Escape pressed mid-drag on a live selection clears it. -/
theorem end_pass_deselect_all_witness :
    (end_pass ⟨false, false, false, true⟩ [] sampleState).1.selection = none :=
  end_pass_deselect_all ⟨false, false, false, true⟩ [] sampleState (Or.inl rfl)

/-- C10: at pass end, when both endpoints were reached this frame, Escape
was not pressed and no pointer press happened without a hovered label,
`end_pass` stores the selection back unchanged; and after `end_pass` the
pending copy text is always empty. -/
theorem end_pass_stable (i : PassInput) (g : Graphics) (s : LabelSelectionState)
    (h1 : s.has_reached_primary = true) (h2 : s.has_reached_secondary = true)
    (h3 : i.escape_pressed = false)
    (h4 : i.any_pressed = false ∨ s.any_hovered = true) :
    (end_pass i g s).1.selection = s.selection ∧
    (end_pass i g s).1.text_to_copy = "" := by
  have hd : (i.escape_pressed || (i.any_pressed && !s.any_hovered)) = false := by
    rcases h4 with h | h <;> simp [h3, h]
  unfold end_pass
  rw [teardownStep_skip g s h1 h2]
  simp only [hd]
  split <;> simp

/-- C10 witness: a quiet pass end keeps the sample selection and leaves
no pending copy text. -/
theorem end_pass_stable_witness :
    (end_pass ⟨false, false, false, false⟩ [] sampleState).1.selection
      = some sampleSelection ∧
    (end_pass ⟨false, false, false, false⟩ [] sampleState).1.text_to_copy = "" := by
  have h := end_pass_stable ⟨false, false, false, false⟩ [] sampleState rfl rfl rfl
    (Or.inl rfl)
  exact ⟨h.1.trans rfl, h.2⟩

/-- C4: the copied text of a widget is the galley's full un-elided text
when the cursor range is empty or covers the whole text, and otherwise
exactly the covered slice; in particular an empty collapsed selection
over `"hello"` copies `"hello"`, and offsets 1 to 4 of `"hello"` copy
`"ell"`. -/
theorem selected_text_spec :
    (∀ (g : Galley) (r : CCursorRange),
      selected_text g r =
        if r.primary = r.secondary ∨
            (r.sortedMin = 0 ∧ g.text.length ≤ r.sortedMax) then
          g.text
        else
          String.mk ((g.text.toList.drop r.sortedMin).take (r.sortedMax - r.sortedMin))) ∧
    selected_text helloGalley ⟨2, 2⟩ = "hello" ∧
    selected_text helloGalley ⟨1, 4⟩ = "ell" := by
  refine ⟨fun g r => ?_, by decide, by decide⟩
  simp only [selected_text, CCursorRange.is_empty, CCursorRange.contains,
    CCursorRange.select_all, CCursorRange.two, CCursorRange.sortedMin,
    CCursorRange.sortedMax, CCursorRange.slice_str, Galley.beginC, Galley.endC,
    Bool.or_eq_true, beq_iff_eq, Bool.and_eq_true, decide_eq_true_eq,
    Nat.min_def, Nat.max_def]
  split_ifs with hA hB hB <;> first
    | rfl
    | (exfalso; omega)

theorem string_toList_ne_nil (s : String) (h : s ≠ "") : s.toList ≠ [] := by
  intro hc
  apply h
  cases s with
  | mk data => cases data with
    | nil => rfl
    | cons c cs => simp at hc

/-- C3: appending a non-empty fragment to a non-empty accumulator joins
the two with exactly the separator the spec describes: one newline when
the previous fragment's bottom edge is at or above the new fragment's
top and the gap is at most half the estimated row height, two newlines
when the gap exceeds it; otherwise one space exactly when the
accumulated text does not end in whitespace and the new fragment does
not start with whitespace or ASCII punctuation, and nothing otherwise. -/
theorem copy_text_join (s : LabelSelectionState) (A B : Rect) (g : Galley)
    (r : CCursorRange)
    (h1 : s.text_to_copy ≠ "") (h2 : s.last_copied_galley_rect = some A)
    (h3 : selected_text g r ≠ "") :
    (copy_text s B g r).text_to_copy =
      s.text_to_copy ++
        joinSeparator A B (estimate_row_height g) s.text_to_copy (selected_text g r) ++
        selected_text g r := by
  have hne : (selected_text g r).isEmpty = false := by
    rw [Bool.eq_false_iff]
    intro hc
    exact h3 ((String.isEmpty_iff _).1 hc)
  have hacc : s.text_to_copy.isEmpty = false := by
    rw [Bool.eq_false_iff]
    intro hc
    exact h1 ((String.isEmpty_iff _).1 hc)
  obtain ⟨c, hc⟩ : ∃ c, s.text_to_copy.toList.getLast? = some c := by
    cases hg : s.text_to_copy.toList.getLast? with
    | none => exact absurd (List.getLast?_eq_none_iff.1 hg) (string_toList_ne_nil _ h1)
    | some c => exact ⟨c, rfl⟩
  unfold copy_text joinSeparator
  simp only [hne, hacc, h2, Bool.false_eq_true, if_false]
  by_cases hv : A.bottom ≤ B.top
  · rw [if_pos hv, if_pos hv]
    have hhalf : estimate_row_height g * (1 / 2) = estimate_row_height g / 2 := by ring
    by_cases hgap : estimate_row_height g * (1 / 2) < B.top - A.bottom
    · rw [if_pos hgap, if_neg (by rw [← hhalf]; exact not_le.2 hgap)]
      rw [String.append_assoc s.text_to_copy,
          (by decide : ("\n" ++ "\n" : String) = "\n\n")]
    · rw [if_neg hgap, if_pos (by rw [← hhalf]; exact not_lt.1 hgap)]
  · rw [if_neg hv, if_neg hv]
    have hend : endsInWhitespace s.text_to_copy = c.isWhitespace := by
      unfold endsInWhitespace
      rw [hc]
      rfl
    rw [hc]
    by_cases hw : c.isWhitespace
    · rw [if_neg, if_neg]
      · exact (String.append_empty s.text_to_copy).symm ▸ rfl
      · rw [hend, hw]
        simp
      · simp [hw]
    · by_cases hp : startsWithSpaceOrPunct (selected_text g r) = false
      · rw [if_pos ⟨by simp [Bool.eq_false_iff.2 hw], hp⟩,
            if_pos ⟨by rw [hend]; exact Bool.eq_false_iff.2 hw, hp⟩]
      · rw [if_neg (by simp [hp]), if_neg (by simp [hp])]
        exact (String.append_empty s.text_to_copy).symm ▸ rfl

/-- C3 witness: the four spec vectors — a gap of 0.6 row heights gives
two newlines, 0.2 gives one; `"foo "` then `"bar"` joins with no extra
space, `"foo"` then `"bar"` joins with one space. -/
theorem copy_text_join_witness :
    (copy_text (accState "alpha")
        ⟨⟨0, 106⟩, ⟨12, 116⟩⟩ barGalley ⟨0, 0⟩).text_to_copy = "alpha\n\nbar" ∧
    (copy_text (accState "alpha")
        ⟨⟨0, 102⟩, ⟨12, 112⟩⟩ barGalley ⟨0, 0⟩).text_to_copy = "alpha\nbar" ∧
    (copy_text (accState "foo ")
        ⟨⟨20, 90⟩, ⟨32, 100⟩⟩ barGalley ⟨0, 0⟩).text_to_copy = "foo bar" ∧
    (copy_text (accState "foo")
        ⟨⟨20, 90⟩, ⟨32, 100⟩⟩ barGalley ⟨0, 0⟩).text_to_copy = "foo bar" := by
  refine ⟨?_, ?_, ?_, ?_⟩
  · rw [copy_text_join _ ⟨⟨0, 90⟩, ⟨12, 100⟩⟩ _ barGalley ⟨0, 0⟩ (by decide) rfl
        (by decide)]
    show ("alpha" : String) ++ joinSeparator ⟨⟨0, 90⟩, ⟨12, 100⟩⟩ ⟨⟨0, 106⟩, ⟨12, 116⟩⟩
      (estimate_row_height barGalley) "alpha" "bar" ++ "bar" = "alpha\n\nbar"
    have hsep : joinSeparator ⟨⟨0, 90⟩, ⟨12, 100⟩⟩ ⟨⟨0, 106⟩, ⟨12, 116⟩⟩
        (estimate_row_height barGalley) "alpha" "bar" = "\n\n" := by
      norm_num [joinSeparator, estimate_row_height, barGalley, Rect.top, Rect.bottom]
    rw [hsep]
    decide
  · rw [copy_text_join _ ⟨⟨0, 90⟩, ⟨12, 100⟩⟩ _ barGalley ⟨0, 0⟩ (by decide) rfl
        (by decide)]
    show ("alpha" : String) ++ joinSeparator ⟨⟨0, 90⟩, ⟨12, 100⟩⟩ ⟨⟨0, 102⟩, ⟨12, 112⟩⟩
      (estimate_row_height barGalley) "alpha" "bar" ++ "bar" = "alpha\nbar"
    have hsep : joinSeparator ⟨⟨0, 90⟩, ⟨12, 100⟩⟩ ⟨⟨0, 102⟩, ⟨12, 112⟩⟩
        (estimate_row_height barGalley) "alpha" "bar" = "\n" := by
      norm_num [joinSeparator, estimate_row_height, barGalley, Rect.top, Rect.bottom]
    rw [hsep]
    decide
  · rw [copy_text_join _ ⟨⟨0, 90⟩, ⟨12, 100⟩⟩ _ barGalley ⟨0, 0⟩ (by decide) rfl
        (by decide)]
    show ("foo " : String) ++ joinSeparator ⟨⟨0, 90⟩, ⟨12, 100⟩⟩ ⟨⟨20, 90⟩, ⟨32, 100⟩⟩
      (estimate_row_height barGalley) "foo " "bar" ++ "bar" = "foo bar"
    have hsep : joinSeparator ⟨⟨0, 90⟩, ⟨12, 100⟩⟩ ⟨⟨20, 90⟩, ⟨32, 100⟩⟩
        (estimate_row_height barGalley) "foo " "bar" = "" := by
      have hlt : ¬ (Rect.bottom ⟨⟨0, 90⟩, ⟨12, 100⟩⟩ ≤ Rect.top ⟨⟨20, 90⟩, ⟨32, 100⟩⟩) := by
        norm_num [Rect.top, Rect.bottom]
      unfold joinSeparator
      rw [if_neg hlt, if_neg (by decide)]
    rw [hsep]
    decide
  · rw [copy_text_join _ ⟨⟨0, 90⟩, ⟨12, 100⟩⟩ _ barGalley ⟨0, 0⟩ (by decide) rfl
        (by decide)]
    show ("foo" : String) ++ joinSeparator ⟨⟨0, 90⟩, ⟨12, 100⟩⟩ ⟨⟨20, 90⟩, ⟨32, 100⟩⟩
      (estimate_row_height barGalley) "foo" "bar" ++ "bar" = "foo bar"
    have hsep : joinSeparator ⟨⟨0, 90⟩, ⟨12, 100⟩⟩ ⟨⟨20, 90⟩, ⟨32, 100⟩⟩
        (estimate_row_height barGalley) "foo" "bar" = " " := by
      have hlt : ¬ (Rect.bottom ⟨⟨0, 90⟩, ⟨12, 100⟩⟩ ≤ Rect.top ⟨⟨20, 90⟩, ⟨32, 100⟩⟩) := by
        norm_num [Rect.top, Rect.bottom]
      unfold joinSeparator
      rw [if_neg hlt, if_pos (by decide)]
    rw [hsep]
    decide

/-! Vertex-revert bookkeeping for the teardown theorem (C1). -/

theorem modifyAt_get? {α : Type} (f : α → α) (n m : Nat) (xs : List α) :
    (modifyAt f n xs).get? m = if n = m then (xs.get? m).map f else xs.get? m := by
  induction xs generalizing n m with
  | nil => simp [modifyAt]
  | cons x xs ih =>
    cases n with
    | zero =>
      cases m with
      | zero => simp [modifyAt]
      | succ m => simp [modifyAt]
    | succ n =>
      cases m with
      | zero => simp [modifyAt]
      | succ m => simpa [modifyAt] using ih n m

theorem revertFold_cons (i : Nat) (idxs : List Nat) (vs : List Vertex) :
    revertFold (i :: idxs) vs = revertFold idxs (modifyAt revertVertex i vs) := rfl

theorem revertFold_get?_not_mem (idxs : List Nat) (vs : List Vertex) (m : Nat)
    (h : m ∉ idxs) : (revertFold idxs vs).get? m = vs.get? m := by
  induction idxs generalizing vs with
  | nil => rfl
  | cons i idxs ih =>
    rw [revertFold_cons, ih _ (fun hm => h (List.mem_cons_of_mem _ hm)),
        modifyAt_get?, if_neg (fun he : i = m => h (List.mem_cons.2 (Or.inl he.symm)))]

theorem revertFold_get?_mem (idxs : List Nat) (vs : List Vertex) (m : Nat)
    (h : m ∈ idxs) :
    (revertFold idxs vs).get? m = (vs.get? m).map revertVertex := by
  induction idxs generalizing vs with
  | nil => cases h
  | cons i idxs ih =>
    rw [revertFold_cons]
    by_cases hm : m ∈ idxs
    · rw [ih _ hm, modifyAt_get?]
      by_cases hi : i = m
      · subst hi
        rw [if_pos rfl]
        cases vs.get? i <;> rfl
      · rw [if_neg hi]
    · have hi : m = i := by
        rcases List.mem_cons.1 h with h' | h'
        · exact h'
        · exact absurd h' hm
      subst hi
      rw [revertFold_get?_not_mem _ _ _ hm, modifyAt_get?, if_pos rfl]

theorem revertFold_get?_cases (idxs : List Nat) (vs : List Vertex) (m : Nat) :
    (revertFold idxs vs).get? m = vs.get? m ∨
    (revertFold idxs vs).get? m = (vs.get? m).map revertVertex := by
  by_cases h : m ∈ idxs
  · exact Or.inr (revertFold_get?_mem idxs vs m h)
  · exact Or.inl (revertFold_get?_not_mem idxs vs m h)

theorem map_const_trans (x y z : Option Color32)
    (h1 : x = y ∨ x = y.map (fun _ => transparent))
    (h2 : y = z ∨ y = z.map (fun _ => transparent)) :
    x = z ∨ x = z.map (fun _ => transparent) := by
  rcases h2 with h2 | h2
  · rw [h2] at h1
    exact h1
  · rcases h1 with h1 | h1
    · rw [h1, h2]
      right
      rfl
    · rw [h1, h2]
      right
      cases z <;> rfl

theorem rowsColor?_revertRows_cases (sel : RowVertexIndices) (rows : List RowMesh)
    (r v : Nat) :
    rowsColor? (revertRows sel rows) r v = rowsColor? rows r v ∨
    rowsColor? (revertRows sel rows) r v
      = (rowsColor? rows r v).map (fun _ => transparent) := by
  unfold revertRows rowsColor?
  rw [modifyAt_get?]
  by_cases h : sel.row = r
  · rw [if_pos h]
    cases hg : rows.get? r with
    | none => exact Or.inl rfl
    | some m =>
      simp only [Option.map_some']
      unfold revertRowMesh
      rcases revertFold_get?_cases sel.vertex_indices m.vertices v with h2 | h2 <;>
        rw [h2]
      · exact Or.inl rfl
      · right
        cases m.vertices.get? v <;> rfl
  · rw [if_neg h]
    exact Or.inl rfl

theorem rowsColor?_revertRows_mem (sel : RowVertexIndices) (rows : List RowMesh)
    (v : Nat) (hv : v ∈ sel.vertex_indices) :
    rowsColor? (revertRows sel rows) sel.row v
      = (rowsColor? rows sel.row v).map (fun _ => transparent) := by
  unfold revertRows rowsColor?
  rw [modifyAt_get?, if_pos rfl]
  cases hg : rows.get? sel.row with
  | none => rfl
  | some m =>
    simp only [Option.map_some']
    unfold revertRowMesh
    rw [revertFold_get?_mem _ _ _ hv]
    cases m.vertices.get? v <;> rfl

theorem revertAllRows_cons (s : RowVertexIndices) (sels : List RowVertexIndices)
    (rows : List RowMesh) :
    revertAllRows (s :: sels) rows = revertAllRows sels (revertRows s rows) := rfl

theorem rowsColor?_revertAllRows_cases (sels : List RowVertexIndices)
    (rows : List RowMesh) (r v : Nat) :
    rowsColor? (revertAllRows sels rows) r v = rowsColor? rows r v ∨
    rowsColor? (revertAllRows sels rows) r v
      = (rowsColor? rows r v).map (fun _ => transparent) := by
  induction sels generalizing rows with
  | nil => exact Or.inl rfl
  | cons s sels ih =>
    rw [revertAllRows_cons]
    exact map_const_trans _ _ _ (ih (revertRows s rows))
      (rowsColor?_revertRows_cases s rows r v)

theorem rowsColor?_revertAllRows_mem (sels : List RowVertexIndices)
    (rows : List RowMesh) (sel : RowVertexIndices) (hs : sel ∈ sels)
    (v : Nat) (hv : v ∈ sel.vertex_indices) :
    rowsColor? (revertAllRows sels rows) sel.row v
      = (rowsColor? rows sel.row v).map (fun _ => transparent) := by
  induction sels generalizing rows with
  | nil => cases hs
  | cons s sels ih =>
    rw [revertAllRows_cons]
    rcases List.mem_cons.1 hs with h | h
    · subst h
      have hbase := rowsColor?_revertRows_mem sel rows v hv
      rcases rowsColor?_revertAllRows_cases sels (revertRows sel rows) sel.row v
        with h2 | h2 <;> rw [h2, hbase]
      cases rowsColor? rows sel.row v <;> rfl
    · rw [ih (revertRows s rows) h]
      rcases rowsColor?_revertRows_cases s rows sel.row v with h2 | h2 <;> rw [h2]
      cases rowsColor? rows sel.row v <;> rfl

theorem shapeVertexColor?_mutate_cases (l : PaintList) (j : Nat)
    (sels : List RowVertexIndices) (i r v : Nat) :
    shapeVertexColor? (mutate_shape l j sels) i r v = shapeVertexColor? l i r v ∨
    shapeVertexColor? (mutate_shape l j sels) i r v
      = (shapeVertexColor? l i r v).map (fun _ => transparent) := by
  unfold mutate_shape shapeVertexColor?
  rw [modifyAt_get?]
  by_cases h : j = i
  · rw [if_pos h]
    cases hg : l.get? i with
    | none => exact Or.inl rfl
    | some s =>
      cases s with
      | other t => exact Or.inl rfl
      | text rows =>
        show shapeColor? (revertShape sels (Shape.text rows)) r v = _ ∨ _
        unfold revertShape shapeColor?
        exact rowsColor?_revertAllRows_cases sels rows r v
  · rw [if_neg h]
    exact Or.inl rfl

theorem shapeVertexColor?_mutate_mem (l : PaintList) (i : Nat)
    (sels : List RowVertexIndices) (rv : RowVertexIndices) (hrv : rv ∈ sels)
    (vi : Nat) (hvi : vi ∈ rv.vertex_indices) :
    shapeVertexColor? (mutate_shape l i sels) i rv.row vi
      = (shapeVertexColor? l i rv.row vi).map (fun _ => transparent) := by
  unfold mutate_shape shapeVertexColor?
  rw [modifyAt_get?, if_pos rfl]
  cases hg : l.get? i with
  | none => rfl
  | some s =>
    cases s with
    | other t => rfl
    | text rows =>
      show shapeColor? (revertShape sels (Shape.text rows)) rv.row vi = _
      unfold revertShape shapeColor?
      exact rowsColor?_revertAllRows_mem sels rows rv hrv vi hvi

theorem revertPaintList_cons (p : Nat × List RowVertexIndices)
    (ps : List (Nat × List RowVertexIndices)) (l : PaintList) :
    revertPaintList (p :: ps) l = revertPaintList ps (mutate_shape l p.1 p.2) := rfl

theorem shapeVertexColor?_revertPaintList_cases
    (ps : List (Nat × List RowVertexIndices)) (l : PaintList) (i r v : Nat) :
    shapeVertexColor? (revertPaintList ps l) i r v = shapeVertexColor? l i r v ∨
    shapeVertexColor? (revertPaintList ps l) i r v
      = (shapeVertexColor? l i r v).map (fun _ => transparent) := by
  induction ps generalizing l with
  | nil => exact Or.inl rfl
  | cons p ps ih =>
    rw [revertPaintList_cons]
    exact map_const_trans _ _ _ (ih (mutate_shape l p.1 p.2))
      (shapeVertexColor?_mutate_cases l p.1 p.2 i r v)

theorem shapeVertexColor?_revertPaintList_mem
    (ps : List (Nat × List RowVertexIndices)) (l : PaintList)
    (p : Nat × List RowVertexIndices) (hp : p ∈ ps)
    (rv : RowVertexIndices) (hrv : rv ∈ p.2) (vi : Nat)
    (hvi : vi ∈ rv.vertex_indices) :
    shapeVertexColor? (revertPaintList ps l) p.1 rv.row vi
      = (shapeVertexColor? l p.1 rv.row vi).map (fun _ => transparent) := by
  induction ps generalizing l with
  | nil => cases hp
  | cons q ps ih =>
    rw [revertPaintList_cons]
    rcases List.mem_cons.1 hp with h | h
    · subst h
      have hbase := shapeVertexColor?_mutate_mem l p.1 p.2 rv hrv vi hvi
      rcases shapeVertexColor?_revertPaintList_cases ps (mutate_shape l p.1 p.2)
        p.1 rv.row vi with h2 | h2 <;> rw [h2, hbase]
      cases shapeVertexColor? l p.1 rv.row vi <;> rfl
    · rw [ih (mutate_shape l q.1 q.2) h]
      rcases shapeVertexColor?_mutate_cases l q.1 q.2 p.1 rv.row vi with h2 | h2 <;>
        rw [h2]
      cases shapeVertexColor? l p.1 rv.row vi <;> rfl

theorem lookupLayer_updateLayer_self (g : Graphics) (k : Nat) (l0 l' : PaintList)
    (h : lookupLayer g k = some l0) :
    lookupLayer (updateLayer g k l') k = some l' := by
  induction g with
  | nil => simp [lookupLayer] at h
  | cons e g ih =>
    obtain ⟨k', v⟩ := e
    by_cases hk : k' = k
    · simp [lookupLayer, updateLayer, hk]
    · simp only [lookupLayer, updateLayer, if_neg hk] at h ⊢
      exact ih h

theorem vertexColor?_eq (g : Graphics) (k : Nat) (l : PaintList)
    (h : lookupLayer g k = some l) (i r v : Nat) :
    vertexColor? g k i r v = shapeVertexColor? l i r v := by
  unfold vertexColor?
  rw [h]

/-- C1 (amended): at pass end, if not both endpoints were reached,
`end_pass` sets the selection to `none`; and — provided a selection was
present and the graphics hold a paint list for its layer — every vertex
recorded in `painted_selections` has its color set back to fully
transparent (the surviving color at each recorded index is the
transparent one whenever a vertex exists there). -/
theorem end_pass_teardown (i : PassInput) (g : Graphics) (s : LabelSelectionState)
    (h : ¬(s.has_reached_primary = true ∧ s.has_reached_secondary = true)) :
    (end_pass i g s).1.selection = none ∧
    (∀ sel, s.selection = some sel →
      ∀ l, lookupLayer g sel.layer_id = some l →
        ∀ p ∈ s.painted_selections, ∀ rv ∈ p.2, ∀ vi ∈ rv.vertex_indices,
          vertexColor? (end_pass i g s).2.1 sel.layer_id p.1 rv.row vi
            = (vertexColor? g sel.layer_id p.1 rv.row vi).map (fun _ => transparent)) := by
  have hb : (!s.has_reached_primary || !s.has_reached_secondary) = true := by
    cases hp : s.has_reached_primary <;> cases hq : s.has_reached_secondary <;>
      simp_all
  constructor
  · have h1 := teardownStep_selection g s hb
    simp only [end_pass]
    split <;> split <;> first | rfl | exact h1
  · intro sel hsel l hl p hp rv hrv vi hvi
    have hg2 : (end_pass i g s).2.1
        = updateLayer g sel.layer_id (revertPaintList s.painted_selections l) := by
      show (teardownStep g s).2 = _
      unfold teardownStep
      rw [if_pos hb, hsel]
      show (match lookupLayer g sel.layer_id with
        | some l =>
          ({ s with selection := none, painted_selections := [] },
           updateLayer g sel.layer_id (revertPaintList s.painted_selections l))
        | none => ({ s with selection := none }, g)).2 = _
      rw [hl]
    rw [hg2,
        vertexColor?_eq _ _ _ (lookupLayer_updateLayer_self g sel.layer_id l _ hl),
        vertexColor?_eq g sel.layer_id l hl]
    exact shapeVertexColor?_revertPaintList_mem s.painted_selections l p hp rv hrv
      vi hvi

/-- C1 witness: a two-endpoint selection whose endpoints were not
reached; the recorded tinted vertex (color 7) is reverted to
transparent at pass end. -/
theorem end_pass_teardown_witness :
    vertexColor? (end_pass ⟨false, false, false, false⟩ lostGraphics lostState).2.1
      0 0 0 0 = some transparent := by
  have h := end_pass_teardown ⟨false, false, false, false⟩ lostGraphics lostState
    (by decide)
  have h2 := h.2 sampleSelection rfl
    [Shape.text [⟨[⟨⟨0, 0⟩, ⟨0, 0⟩, 7⟩, ⟨⟨0, 0⟩, ⟨0, 0⟩, 9⟩]⟩]] rfl
    (0, [⟨0, [0, 1]⟩]) (by decide) ⟨0, [0, 1]⟩ (by decide) 0 (by decide)
  exact h2.trans rfl

/-- C1 counterexample: the claim as stated fails when no selection is
stored (reachable via the public `clear_selection` mid-pass): endpoints
were not both reached and a painted mark is recorded, yet `end_pass`
leaves the recorded vertex's color at 5, not transparent. -/
theorem end_pass_teardown_counterexample :
    clearedState.has_reached_primary = false ∧
    clearedState.has_reached_secondary = false ∧
    clearedState.painted_selections = [(0, [⟨0, [0]⟩])] ∧
    vertexColor? (end_pass ⟨false, false, false, false⟩ tintedGraphics
      clearedState).2.1 0 0 0 0 = some 5 ∧
    (5 : Color32) ≠ transparent := by
  exact ⟨rfl, rfl, rfl, rfl, by decide⟩

/-! Helper facts about `cursor_for` (C2, C5, C7). -/

theorem refreshPrimary_primary_widget_id (v : VisitInput) (t : TSTransform)
    (g : Galley) (sel : CurrentSelection) :
    (refreshPrimary v t g sel).primary.widget_id = sel.primary.widget_id := by
  unfold refreshPrimary
  split <;> rfl

theorem refreshPrimary_primary_ccursor (v : VisitInput) (t : TSTransform)
    (g : Galley) (sel : CurrentSelection) :
    (refreshPrimary v t g sel).primary.ccursor = sel.primary.ccursor := by
  unfold refreshPrimary
  split <;> rfl

theorem refreshPrimary_secondary (v : VisitInput) (t : TSTransform)
    (g : Galley) (sel : CurrentSelection) :
    (refreshPrimary v t g sel).secondary = sel.secondary := by
  unfold refreshPrimary
  split <;> rfl

theorem refreshSecondary_primary (v : VisitInput) (t : TSTransform)
    (g : Galley) (sel : CurrentSelection) :
    (refreshSecondary v t g sel).primary = sel.primary := by
  unfold refreshSecondary
  split <;> rfl

theorem refreshSecondary_secondary_widget_id (v : VisitInput) (t : TSTransform)
    (g : Galley) (sel : CurrentSelection) :
    (refreshSecondary v t g sel).secondary.widget_id = sel.secondary.widget_id := by
  unfold refreshSecondary
  split <;> rfl

theorem refreshSecondary_secondary_ccursor (v : VisitInput) (t : TSTransform)
    (g : Galley) (sel : CurrentSelection) :
    (refreshSecondary v t g sel).secondary.ccursor = sel.secondary.ccursor := by
  unfold refreshSecondary
  split <;> rfl

theorem cursor_for_none (v : VisitInput) (t : TSTransform) (g : Galley)
    (s : LabelSelectionState) (h : s.selection = none) :
    cursor_for v t g s = (s, none) := by
  unfold cursor_for
  rw [h]

theorem cursor_for_other_layer (v : VisitInput) (t : TSTransform) (g : Galley)
    (s : LabelSelectionState) (sel : CurrentSelection)
    (hsel : s.selection = some sel) (hlayer : sel.layer_id ≠ v.layer_id) :
    cursor_for v t g s = (s, none) := by
  unfold cursor_for
  rw [hsel]
  show (if sel.layer_id ≠ v.layer_id then ((s, none) : LabelSelectionState × Option CCursorRange)
    else _) = (s, none)
  rw [if_pos hlayer]

theorem cursor_for_selection_eq (v : VisitInput) (gfg : TSTransform) (g : Galley)
    (s : LabelSelectionState) (sel : CurrentSelection)
    (hsel : s.selection = some sel) (hlayer : sel.layer_id = v.layer_id) :
    (cursor_for v gfg g s).1.selection =
      some (refreshSecondary v gfg g (refreshPrimary v gfg g
        (dragUpdatedSelection v gfg g s sel))) := by
  simp [cursor_for, hsel, hlayer]

theorem cursor_for_primary_fields (v : VisitInput) (gfg : TSTransform) (g : Galley)
    (s : LabelSelectionState) (sel : CurrentSelection)
    (hsel : s.selection = some sel) (hlayer : sel.layer_id = v.layer_id) :
    ((cursor_for v gfg g s).1.selection.map
        (fun c => (c.primary.widget_id, c.primary.ccursor)))
      = some ((dragUpdatedSelection v gfg g s sel).primary.widget_id,
              (dragUpdatedSelection v gfg g s sel).primary.ccursor) := by
  rw [cursor_for_selection_eq v gfg g s sel hsel hlayer]
  simp only [Option.map_some', refreshSecondary_primary,
    refreshPrimary_primary_widget_id, refreshPrimary_primary_ccursor]

/-- C2: on a visit of a widget holding a selection in its layer, the
local cursor range returned by `cursor_for` follows the four-case rule
on the stored (post-update) selection and the frame's pre-visit reached
flags: both endpoints owned → the two stored cursors; only primary →
secondary synthesized as text begin when the secondary was already
reached, text end otherwise; symmetric for only secondary; neither →
full text exactly when exactly one endpoint was reached, else nothing. -/
theorem cursor_for_four_cases (v : VisitInput) (gfg : TSTransform) (g : Galley)
    (s : LabelSelectionState) (sel : CurrentSelection)
    (hsel : s.selection = some sel) (hlayer : sel.layer_id = v.layer_id) :
    ∃ sel', (cursor_for v gfg g s).1.selection = some sel' ∧
      (cursor_for v gfg g s).2 =
        fourCaseRange g v.id sel' s.has_reached_primary s.has_reached_secondary := by
  refine ⟨_, cursor_for_selection_eq v gfg g s sel hsel hlayer, ?_⟩
  have hw1 : (refreshSecondary v gfg g (refreshPrimary v gfg g
      (dragUpdatedSelection v gfg g s sel))).primary.widget_id
      = (dragUpdatedSelection v gfg g s sel).primary.widget_id := by
    rw [refreshSecondary_primary, refreshPrimary_primary_widget_id]
  have hw2 : (refreshSecondary v gfg g (refreshPrimary v gfg g
      (dragUpdatedSelection v gfg g s sel))).secondary.widget_id
      = (dragUpdatedSelection v gfg g s sel).secondary.widget_id := by
    rw [refreshSecondary_secondary_widget_id]
    show (refreshPrimary v gfg g (dragUpdatedSelection v gfg g s sel)).secondary.widget_id = _
    rw [refreshPrimary_secondary]
  simp only [cursor_for, hsel, hlayer, ne_eq, not_true_eq_false, if_false,
    fourCaseRange, hw1, hw2]
  cases hP : (v.id == (dragUpdatedSelection v gfg g s sel).primary.widget_id) <;>
    cases hS : (v.id == (dragUpdatedSelection v gfg g s sel).secondary.widget_id) <;>
    simp [hP, hS]

/-- C2 witness: a quiet visit by the widget owning only the primary
endpoint of the sample selection. -/
theorem cursor_for_four_cases_witness :
    ∃ sel', (cursor_for ownVisit idT abGalley ownState).1.selection = some sel' ∧
      (cursor_for ownVisit idT abGalley ownState).2 =
        fourCaseRange abGalley ownVisit.id sel' ownState.has_reached_primary
          ownState.has_reached_secondary :=
  cursor_for_four_cases ownVisit idT abGalley ownState sampleSelection rfl rfl

theorem dragUpdatedSelection_up (v : VisitInput) (gfg : TSTransform) (g : Galley)
    (s : LabelSelectionState) (sel : CurrentSelection) (pp : Pos2)
    (hdrag : s.is_dragging = true)
    (hmay : (v.multi_widget_text_select || (sel.primary.widget_id == v.id)) = true)
    (hpp : v.pointer_interact_pos = some pp)
    (hnc : v.contains_pointer = false)
    (hcol : optXRangeIntersects (clippedGalleyRect v gfg g)
      s.selection_bbox_last_frame = true)
    (hrp : s.has_reached_primary = false)
    (hord : sel.primary.pos.y ≤ sel.secondary.pos.y)
    (ht1 : pp.y ≤ (clippedGalleyRect v gfg g).top)
    (ht2 : (clippedGalleyRect v gfg g).top ≤ sel.secondary.pos.y) :
    (dragUpdatedSelection v gfg g s sel).primary
      = WidgetTextCursor.new v.id g.beginC gfg g := by
  unfold dragUpdatedSelection
  simp only [hdrag, hmay, hpp, hnc, Bool.and_self, if_true, Bool.false_eq_true,
    if_false]
  rw [if_pos ⟨hcol, by simp [hrp], hord, ht1, ht2⟩]
  dsimp only
  repeat' split
  all_goals rfl

theorem dragUpdatedSelection_down (v : VisitInput) (gfg : TSTransform) (g : Galley)
    (s : LabelSelectionState) (sel : CurrentSelection) (pp : Pos2)
    (hdrag : s.is_dragging = true)
    (hmay : (v.multi_widget_text_select || (sel.primary.widget_id == v.id)) = true)
    (hpp : v.pointer_interact_pos = some pp)
    (hnc : v.contains_pointer = false)
    (hcol : optXRangeIntersects (clippedGalleyRect v gfg g)
      s.selection_bbox_last_frame = true)
    (hhrs : (s.has_reached_secondary || (v.id == sel.secondary.widget_id)) = true)
    (hhrp : (s.has_reached_primary || (v.id == sel.primary.widget_id)) = true)
    (hord : sel.secondary.pos.y ≤ sel.primary.pos.y)
    (hb1 : sel.secondary.pos.y ≤ (clippedGalleyRect v gfg g).bottom)
    (hb2 : (clippedGalleyRect v gfg g).bottom ≤ pp.y)
    (hnup : ¬(s.has_reached_primary = false ∧ sel.primary.pos.y ≤ sel.secondary.pos.y ∧
      pp.y ≤ (clippedGalleyRect v gfg g).top ∧
      (clippedGalleyRect v gfg g).top ≤ sel.secondary.pos.y)) :
    (dragUpdatedSelection v gfg g s sel).primary
      = WidgetTextCursor.new v.id g.endC gfg g := by
  unfold dragUpdatedSelection
  simp only [hdrag, hmay, hpp, hnc, Bool.and_self, if_true, Bool.false_eq_true,
    if_false]
  rw [if_neg (by
    intro hfull
    exact hnup ⟨by simpa using hfull.2.1, hfull.2.2.1, hfull.2.2.2.1, hfull.2.2.2.2⟩)]
  rw [if_pos ⟨hcol, hhrs, hhrp, hord, hb1, hb2⟩]
  dsimp only
  repeat' split
  all_goals rfl

/-- C5: during a drag whose pointer is not over this widget but is
column-aligned with last frame's selection bbox, a visit with the
pointer above the widget (topmost-reached configuration: primary not yet
reached, primary above secondary, pointer above the galley top, galley
top above the secondary) anchors this widget's stored primary cursor to
the galley's first character; symmetrically, a pointer below the widget
in the bottommost-reached configuration anchors it to the last
character. -/
theorem cursor_for_edge_extension (v : VisitInput) (gfg : TSTransform) (g : Galley)
    (s : LabelSelectionState) (sel : CurrentSelection) (pp : Pos2)
    (hsel : s.selection = some sel)
    (hlayer : sel.layer_id = v.layer_id)
    (hdrag : s.is_dragging = true)
    (hmay : (v.multi_widget_text_select || (sel.primary.widget_id == v.id)) = true)
    (hpp : v.pointer_interact_pos = some pp)
    (hnc : v.contains_pointer = false) :
    ((optXRangeIntersects (clippedGalleyRect v gfg g) s.selection_bbox_last_frame = true ∧
        s.has_reached_primary = false ∧
        sel.primary.pos.y ≤ sel.secondary.pos.y ∧
        pp.y ≤ (clippedGalleyRect v gfg g).top ∧
        (clippedGalleyRect v gfg g).top ≤ sel.secondary.pos.y) →
      ((cursor_for v gfg g s).1.selection.map
          (fun c => (c.primary.widget_id, c.primary.ccursor)))
        = some (v.id, g.beginC)) ∧
    ((optXRangeIntersects (clippedGalleyRect v gfg g) s.selection_bbox_last_frame = true ∧
        (s.has_reached_secondary || (v.id == sel.secondary.widget_id)) = true ∧
        (s.has_reached_primary || (v.id == sel.primary.widget_id)) = true ∧
        sel.secondary.pos.y ≤ sel.primary.pos.y ∧
        sel.secondary.pos.y ≤ (clippedGalleyRect v gfg g).bottom ∧
        (clippedGalleyRect v gfg g).bottom ≤ pp.y ∧
        ¬(s.has_reached_primary = false ∧ sel.primary.pos.y ≤ sel.secondary.pos.y ∧
          pp.y ≤ (clippedGalleyRect v gfg g).top ∧
          (clippedGalleyRect v gfg g).top ≤ sel.secondary.pos.y)) →
      ((cursor_for v gfg g s).1.selection.map
          (fun c => (c.primary.widget_id, c.primary.ccursor)))
        = some (v.id, g.endC)) := by
  constructor
  · rintro ⟨hcol, hrp, hord, ht1, ht2⟩
    rw [cursor_for_primary_fields v gfg g s sel hsel hlayer,
        dragUpdatedSelection_up v gfg g s sel pp hdrag hmay hpp hnc hcol hrp hord
          ht1 ht2]
    rfl
  · rintro ⟨hcol, hhrs, hhrp, hord, hb1, hb2, hnup⟩
    rw [cursor_for_primary_fields v gfg g s sel hsel hlayer,
        dragUpdatedSelection_down v gfg g s sel pp hdrag hmay hpp hnc hcol hhrs
          hhrp hord hb1 hb2 hnup]
    rfl

/-- C5 witness: dragging to y = −1 above the `"ab"` widget anchors its
primary cursor to character 0; dragging to y = 6 below it anchors to
character 2 (the text end). -/
theorem cursor_for_edge_extension_witness :
    ((cursor_for upVisit idT abGalley upState).1.selection.map
        (fun c => (c.primary.widget_id, c.primary.ccursor)))
      = some (upVisit.id, abGalley.beginC) ∧
    ((cursor_for downVisit idT abGalley downState).1.selection.map
        (fun c => (c.primary.widget_id, c.primary.ccursor)))
      = some (downVisit.id, abGalley.endC) := by
  have hrect : clippedGalleyRect upVisit idT abGalley = ⟨⟨0, 0⟩, ⟨10, 5⟩⟩ := by
    unfold clippedGalleyRect upVisit ownVisit idT abGalley TSTransform.mulRect
      TSTransform.apply Rect.fromMinSize Rect.intersect Pos2.zero
    norm_num
  have hrect2 : clippedGalleyRect downVisit idT abGalley = ⟨⟨0, 0⟩, ⟨10, 5⟩⟩ := by
    unfold clippedGalleyRect downVisit ownVisit idT abGalley TSTransform.mulRect
      TSTransform.apply Rect.fromMinSize Rect.intersect Pos2.zero
    norm_num
  constructor
  · refine (cursor_for_edge_extension upVisit idT abGalley upState sampleSelection
      ⟨2, -1⟩ rfl rfl rfl rfl rfl rfl).1 ⟨?_, rfl, ?_, ?_, ?_⟩
    · rw [hrect]
      decide
    · decide
    · rw [hrect]
      norm_num [Rect.top]
    · rw [hrect]
      norm_num [Rect.top, sampleSelection]
  · refine (cursor_for_edge_extension downVisit idT abGalley downState downSelection
      ⟨2, 6⟩ rfl rfl rfl rfl rfl rfl).2 ⟨?_, rfl, rfl, ?_, ?_, ?_, ?_⟩
    · rw [hrect2]
      decide
    · decide
    · rw [hrect2]
      norm_num [Rect.bottom, downSelection]
    · rw [hrect2]
      norm_num [Rect.bottom]
    · intro hc
      cases hc.1

theorem copy_text_preserves (s : LabelSelectionState) (R : Rect) (g : Galley)
    (r : CCursorRange) : (copy_text s R g r).selection = s.selection := by
  simp only [copy_text]
  repeat' split
  all_goals rfl

/-- C9: a visit with no pre-existing global selection whose interaction
produces a (changed, present) local cursor range creates a fresh
`CurrentSelection` in the widget's layer, with both endpoints recording
this widget's id and the range's cursors, and marks both endpoints
reached. -/
theorem on_label_creates_selection (v : VisitInput) (g : Galley)
    (s0 : LabelSelectionState) (r : CCursorRange)
    (h0 : s0.selection = none)
    (h1 : pointerAdjusted v g none = some r) :
    (on_label v g s0).1.selection = some (CurrentSelection.mk v.layer_id
      (WidgetTextCursor.new v.id r.primary (globalFromGalley v) g)
      (WidgetTextCursor.new v.id r.secondary (globalFromGalley v) g)) ∧
    (on_label v g s0).1.has_reached_primary = true ∧
    (on_label v g s0).1.has_reached_secondary = true := by
  cases hcopy : v.copy_event <;>
    refine ⟨?_, ?_, ?_⟩ <;>
    simp [on_label, cursor_for_none, h0, h1, hcopy, copy_text_preserves]

/-- C9 witness: a click on widget 9 (layer 0) with no prior selection
creates a collapsed selection at cursor 0 owned by widget 9. -/
theorem on_label_creates_selection_witness :
    (on_label { crossVisit with layer_id := 0 } abGalley
        LabelSelectionState.default).1.selection
      = some (CurrentSelection.mk ({ crossVisit with layer_id := 0 } : VisitInput).layer_id
        (WidgetTextCursor.new ({ crossVisit with layer_id := 0 } : VisitInput).id 0
          (globalFromGalley { crossVisit with layer_id := 0 }) abGalley)
        (WidgetTextCursor.new ({ crossVisit with layer_id := 0 } : VisitInput).id 0
          (globalFromGalley { crossVisit with layer_id := 0 }) abGalley)) ∧
    (on_label { crossVisit with layer_id := 0 } abGalley
        LabelSelectionState.default).1.has_reached_primary = true ∧
    (on_label { crossVisit with layer_id := 0 } abGalley
        LabelSelectionState.default).1.has_reached_secondary = true :=
  on_label_creates_selection { crossVisit with layer_id := 0 } abGalley
    LabelSelectionState.default ⟨0, 0⟩ rfl rfl

/-- C7 (amended): a visit of a widget in a different layer than the
selection's sees no selection (`cursor_for` returns the default state
and leaves the state unchanged), and — as long as the visit's
interaction produces no new local range (no click starting a selection
there) — the stored selection is untouched by the visit. -/
theorem cross_layer_ignored (v : VisitInput) (g : Galley)
    (s : LabelSelectionState) (sel : CurrentSelection)
    (hsel : s.selection = some sel) (hlayer : sel.layer_id ≠ v.layer_id)
    (hquiet : pointerAdjusted v g none = none) :
    cursor_for v (globalFromGalley v) g s = (s, none) ∧
    (on_label v g s).1.selection = s.selection := by
  constructor
  · exact cursor_for_other_layer v (globalFromGalley v) g s sel hsel hlayer
  · simp only [on_label]
    have hcf : cursor_for v (globalFromGalley v) g
        { s with any_hovered := s.any_hovered || v.hovered,
                 is_dragging := s.is_dragging || v.is_pointer_button_down_on }
        = ({ s with any_hovered := s.any_hovered || v.hovered,
                    is_dragging := s.is_dragging || v.is_pointer_button_down_on }, none) :=
      cursor_for_other_layer v (globalFromGalley v) g _ sel hsel hlayer
    rw [hcf]
    dsimp only
    rw [hquiet]
    simp

/-- C7 witness: a quiet visit from layer 1 leaves the layer-0 sample
selection untouched and sees no local selection. -/
theorem cross_layer_ignored_witness :
    cursor_for quietCrossVisit (globalFromGalley quietCrossVisit) abGalley sampleState
      = (sampleState, none) ∧
    (on_label quietCrossVisit abGalley sampleState).1.selection
      = some sampleSelection := by
  have h := cross_layer_ignored quietCrossVisit abGalley sampleState sampleSelection
    rfl (by decide) rfl
  exact ⟨h.1, h.2.trans rfl⟩

/-- C7 counterexample: the claim as stated fails for a click: a visit
from layer 1 whose interaction produces a new collapsed range moves the
layer-0 selection into layer 1 (it re-anchors the selection to that
widget) instead of being ignored. -/
theorem cross_layer_counterexample :
    sampleState.selection.map (fun c => c.layer_id) = some 0 ∧
    (on_label crossVisit abGalley sampleState).1.selection.map (fun c => c.layer_id)
      = some 1 :=
  ⟨rfl, rfl⟩

end LabelSel
